import Mathlib

/-!
Shallow embedding of the project-management analytics dashboard
(src/main.py of omghumre/AI-project-management).

The program loads a CSV of project records, filters rows by a project
identifier, renders one of three fixed prompt templates over the selected
rows (timeline, resource, risk), and sends the prompt to an external
text-generation service, returning the response text.

Modelling choices:
* A dataset row (one line of project_data.csv) is a `ProjectRecord` with the
  ten columns the program reads.  Cell values are modelled by `Value`
  (string cells and integer-valued numeric cells; the program itself never
  does arithmetic on them, it only renders them into prompt strings).
* The pandas selection `df[df[Project_ID-column] == project_id]` becomes
  `List.filter` over the row list (`projectFilter`).
* The Python f-strings of lines 22-32, 40-50 and 58-68 become explicit
  string concatenations; `column.tolist()` rendered inside an f-string
  becomes `pyListRepr` (the Python list literal of the cell reprs, joined
  by a comma and a space).
* `genai` responses are modelled with `Except String GenResponse`: the
  external call either fails with an error or returns a response carrying
  a `text` field, exactly the shape the methods consume.
* The class methods become state-passing functions returning the result
  together with the (unchanged) `ProjectAnalytics` state, so frame
  properties are statable.
* `load_data` / `main` (lines 73-95) become `load_data` and `mainFlow`:
  reading the CSV either yields rows or an exception message, failure is
  reported via the returned message list (the `st.error` call) and halts
  the flow (the `st.stop` call) before any analytics object is built.
-/

/-- Cell value of the tabular dataset: a CSV cell is a string or a number
(numeric cells are modelled as integers; the program never computes with
them, it only renders them). -/
inductive Value where
  | str (s : String)
  | int (n : Int)
deriving DecidableEq, Repr

/-- Python repr of a single cell value, as it appears inside the rendering
of a list in an f-string: strings are quoted, numbers are printed plainly. -/
def Value.pyRepr : Value → String
  | .str s => "\x27" ++ s ++ "\x27"
  | .int n => toString n

/-- One row of project_data.csv, with the ten columns src/main.py reads
(spec section 6: Project_ID, Task_Name, Estimated_Days, Actual_Days,
Resource_Allocated, Efficiency, Idle_Time, Risk_Type, Likelihood,
Impact_Level). -/
structure ProjectRecord where
  Project_ID : String
  Task_Name : Value
  Estimated_Days : Value
  Actual_Days : Value
  Resource_Allocated : Value
  Efficiency : Value
  Idle_Time : Value
  Risk_Type : Value
  Likelihood : Value
  Impact_Level : Value
deriving DecidableEq, Repr

/-- Python repr of the elements of a list, joined by a comma and a space
(the separator Python uses when rendering a list). -/
def commaSep : List Value → String
  | [] => ""
  | [v] => v.pyRepr
  | v :: rest => v.pyRepr ++ ", " ++ commaSep rest

/-- Python rendering of `column.tolist()` inside an f-string: the cell
reprs joined by a comma and a space, inside square brackets. -/
def pyListRepr (l : List Value) : String :=
  "[" ++ commaSep l ++ "]"

/-- The Project Filter: `self.df[self.df[Project_ID-column] == project_id]`
(src/main.py line 20, and identically lines 38 and 56): the rows whose
Project_ID equals the given identifier, in dataset order. -/
def projectFilter (df : List ProjectRecord) (project_id : String) : List ProjectRecord :=
  df.filter (fun r => r.Project_ID == project_id)

/-- The chart dataframe of the Presentation Layer:
`df[df[Project_ID-column] == selected_project]` (src/main.py line 102, and
identically lines 119 and 138), transcribed separately from
`projectFilter` so their agreement is a theorem, not a definition. -/
def chart_project_df (df : List ProjectRecord) (selected_project : String) : List ProjectRecord :=
  df.filter (fun r => r.Project_ID == selected_project)

/-- Timeline prompt template (src/main.py lines 22-32), with the literal
text of the f-string including its newlines and indentation. -/
def timelinePrompt (project_data : List ProjectRecord) : String :=
  "\n        Analyze this project timeline data:\n        Tasks: "
    ++ pyListRepr (project_data.map (·.Task_Name))
    ++ "\n        Estimated Days: "
    ++ pyListRepr (project_data.map (·.Estimated_Days))
    ++ "\n        Actual Days: "
    ++ pyListRepr (project_data.map (·.Actual_Days))
    ++ "\n        \n        Provide:\n        1. Timeline prediction based on historical data\n        2. Potential delays and bottlenecks\n        3. Schedule optimization suggestions\n        "

/-- Resource prompt template (src/main.py lines 40-50). -/
def resourcePrompt (project_data : List ProjectRecord) : String :=
  "\n        Analyze resource data:\n        Resources: "
    ++ pyListRepr (project_data.map (·.Resource_Allocated))
    ++ "\n        Efficiency: "
    ++ pyListRepr (project_data.map (·.Efficiency))
    ++ "\n        Idle Time: "
    ++ pyListRepr (project_data.map (·.Idle_Time))
    ++ "\n        \n        Provide:\n        1. Resource utilization recommendations\n        2. How to minimize idle time\n        3. Efficiency improvement suggestions\n        "

/-- Risk prompt template (src/main.py lines 58-68). -/
def riskPrompt (project_data : List ProjectRecord) : String :=
  "\n        Analyze project risks:\n        Risk Types: "
    ++ pyListRepr (project_data.map (·.Risk_Type))
    ++ "\n        Likelihood: "
    ++ pyListRepr (project_data.map (·.Likelihood))
    ++ "\n        Impact: "
    ++ pyListRepr (project_data.map (·.Impact_Level))
    ++ "\n        \n        Provide:\n        1. Risk assessment summary\n        2. Mitigation strategies\n        3. Priority recommendations\n        "

/-- The three analysis kinds of the spec (glossary: one of timeline,
resource, risk), selecting which prompt template to render. -/
inductive AnalysisKind where
  | timeline
  | resource
  | risk
deriving DecidableEq, Repr

/-- The Prompt Builder: dispatch of an analysis kind to its template. -/
def buildPrompt : AnalysisKind → List ProjectRecord → String
  | .timeline => timelinePrompt
  | .resource => resourcePrompt
  | .risk => riskPrompt

/-- The columns each analysis kind embeds into its prompt, in template
order (timeline: Task_Name, Estimated_Days, Actual_Days; resource:
Resource_Allocated, Efficiency, Idle_Time; risk: Risk_Type, Likelihood,
Impact_Level). -/
def kindColumns : AnalysisKind → List (ProjectRecord → Value)
  | .timeline => [(·.Task_Name), (·.Estimated_Days), (·.Actual_Days)]
  | .resource => [(·.Resource_Allocated), (·.Efficiency), (·.Idle_Time)]
  | .risk => [(·.Risk_Type), (·.Likelihood), (·.Impact_Level)]

/-- Running the Prompt Builder over an ambient program state: lines 22-32,
40-50 and 58-68 of src/main.py perform only string formatting, so the
state component passes through untouched. -/
def runPromptBuilder {σ : Type} (kind : AnalysisKind)
    (project_data : List ProjectRecord) (w : σ) : String × σ :=
  (buildPrompt kind project_data, w)

/-- Response object of the external text-generation service: the methods
only consume its text field (`response.text`). -/
structure GenResponse where
  text : String
deriving DecidableEq, Repr

/-- The analytics object of src/main.py line 14: holds the loaded
dataframe. -/
structure ProjectAnalytics where
  df : List ProjectRecord
deriving DecidableEq, Repr

/-- Method analyze_timeline (src/main.py lines 19-35): filter the rows of
the selected project, render the timeline prompt, call the external
service, and return its text; the analytics state is returned unchanged
(the method only reads self.df). -/
def ProjectAnalytics.analyze_timeline (self : ProjectAnalytics)
    (generate_content : String → Except String GenResponse)
    (project_id : String) : Except String String × ProjectAnalytics :=
  let project_data := projectFilter self.df project_id
  let prompt := timelinePrompt project_data
  let response := generate_content prompt
  (response.map (fun r => r.text), self)

/-- Method optimize_resources (src/main.py lines 37-53). -/
def ProjectAnalytics.optimize_resources (self : ProjectAnalytics)
    (generate_content : String → Except String GenResponse)
    (project_id : String) : Except String String × ProjectAnalytics :=
  let project_data := projectFilter self.df project_id
  let prompt := resourcePrompt project_data
  let response := generate_content prompt
  (response.map (fun r => r.text), self)

/-- Method assess_risks (src/main.py lines 55-71). -/
def ProjectAnalytics.assess_risks (self : ProjectAnalytics)
    (generate_content : String → Except String GenResponse)
    (project_id : String) : Except String String × ProjectAnalytics :=
  let project_data := projectFilter self.df project_id
  let prompt := riskPrompt project_data
  let response := generate_content prompt
  (response.map (fun r => r.text), self)

/-- Data Loader (src/main.py lines 73-79): reading the CSV either yields
the row list or raises, in which case the error is shown to the user
(`st.error`, the message list of the result) and None is returned. -/
def load_data (read_csv : Except String (List ProjectRecord)) :
    Option (List ProjectRecord) × List String :=
  match read_csv with
  | .ok df => (some df, [])
  | .error e => (none, ["Error loading data: " ++ e])

/-- Distinct values of a column in first-occurrence order, as pandas
`unique()` returns them (src/main.py line 95). -/
def uniqueAux : List String → List String → List String
  | [], _ => []
  | x :: xs, seen =>
      if x ∈ seen then uniqueAux xs seen else x :: uniqueAux xs (x :: seen)

/-- The pandas `unique()` over a column: `uniqueAux` started with nothing
seen. -/
def unique (l : List String) : List String :=
  uniqueAux l []

/-- Outcome of the main flow: either the flow halted after reporting the
listed errors (no analytics object exists), or it is serving with an
analytics object and the project identifiers offered for selection. -/
inductive MainOutcome where
  | halted (reported : List String)
  | serving (analytics : ProjectAnalytics) (selectableProjects : List String)
deriving DecidableEq, Repr

/-- Main flow up to the interactive loop (src/main.py lines 81-95): load
the data; on failure stop (st.stop) with the reported errors; on success
construct the analytics object and offer the distinct Project_ID values
for selection. -/
def mainFlow (read_csv : Except String (List ProjectRecord)) : MainOutcome :=
  match load_data read_csv with
  | (none, errs) => .halted errs
  | (some df, _) => .serving ⟨df⟩ (unique (df.map (·.Project_ID)))

/-! Sample data: the dataset of spec section 8 (two rows for project "P1",
tasks "Design" and "Build", and one row for "P2"), used to instantiate the
theorems below on concrete inputs. -/

/-- A sample row with the given project identifier and task name. -/
def sampleRow (pid task : String) : ProjectRecord :=
  { Project_ID := pid
    Task_Name := .str task
    Estimated_Days := .int 3
    Actual_Days := .int 4
    Resource_Allocated := .str "Team A"
    Efficiency := .int 80
    Idle_Time := .int 1
    Risk_Type := .str "Low"
    Likelihood := .int 2
    Impact_Level := .int 3 }

/-- The sample dataset of spec section 8. -/
def sampleDf : List ProjectRecord :=
  [sampleRow "P1" "Design", sampleRow "P1" "Build", sampleRow "P2" "Test"]

/-- A sample external service that always fails. -/
def failingGen (e : String) : String → Except String GenResponse :=
  fun _ => .error e

/-! Helper lemmas about string embedding (a string occurring between a
prefix and a suffix of another) and about `commaSep`, `pyListRepr` and
`uniqueAux`. -/

/-- The middle of a three-part concatenation is embedded in it. -/
theorem embed_here (x v y : String) : ∃ p q, x ++ v ++ y = p ++ v ++ q :=
  ⟨x, y, rfl⟩

/-- The right end of a concatenation is embedded in it. -/
theorem embed_end (x v : String) : ∃ p q, x ++ v = p ++ v ++ q :=
  ⟨x, "", by simp⟩

/-- Embedding is preserved by prepending. -/
theorem embed_left (x : String) {s v : String} :
    (∃ p q, s = p ++ v ++ q) → ∃ p q, x ++ s = p ++ v ++ q
  | ⟨p, q, h⟩ => ⟨x ++ p, q, by rw [h]; simp [String.append_assoc]⟩

/-- Embedding is preserved by appending. -/
theorem embed_right {s v : String} (y : String) :
    (∃ p q, s = p ++ v ++ q) → ∃ p q, s ++ y = p ++ v ++ q
  | ⟨p, q, h⟩ => ⟨p, q ++ y, by rw [h]; simp [String.append_assoc]⟩

/-- Embedding is transitive: a string embedded in an embedded string is
embedded in the whole. -/
theorem embed_trans {s mid v : String}
    (h1 : ∃ p q, s = p ++ mid ++ q) (h2 : ∃ p q, mid = p ++ v ++ q) :
    ∃ p q, s = p ++ v ++ q := by
  obtain ⟨p, q, hpq⟩ := h1
  obtain ⟨a, b, hab⟩ := h2
  exact ⟨p ++ a, b ++ q, by rw [hpq, hab]; simp [String.append_assoc]⟩

/-- The repr of every member of a list is embedded in the comma-separated
rendering of the list. -/
theorem commaSep_mem {v : Value} : ∀ {l : List Value}, v ∈ l →
    ∃ p q, commaSep l = p ++ v.pyRepr ++ q
  | [], h => absurd h (List.not_mem_nil v)
  | [a], h => by
      rcases List.mem_singleton.mp h with rfl
      exact ⟨"", "", by simp [commaSep]⟩
  | a :: b :: t, h => by
      rcases List.mem_cons.mp h with rfl | hmem
      · exact ⟨"", ", " ++ commaSep (b :: t), by simp [commaSep, String.append_assoc]⟩
      · obtain ⟨p, q, hpq⟩ := commaSep_mem hmem
        exact ⟨a.pyRepr ++ ", " ++ p, q, by
          simp [commaSep, hpq, String.append_assoc]⟩

/-- The repr of every member of a list is embedded in the Python list
rendering of the list. -/
theorem pyListRepr_mem {v : Value} {l : List Value} (h : v ∈ l) :
    ∃ p q, pyListRepr l = p ++ v.pyRepr ++ q := by
  have hc := commaSep_mem h
  unfold pyListRepr
  exact embed_right "]" (embed_left "[" hc)

/-- Membership in `uniqueAux`: exactly the elements of the list not
already seen. -/
theorem mem_uniqueAux : ∀ (l : List String) (seen : List String) (x : String),
    x ∈ uniqueAux l seen ↔ x ∈ l ∧ x ∉ seen
  | [], seen, x => by simp [uniqueAux]
  | a :: xs, seen, x => by
      by_cases ha : a ∈ seen
      · rw [uniqueAux, if_pos ha]
        rw [mem_uniqueAux xs seen x]
        simp only [List.mem_cons]
        constructor
        · rintro ⟨hx, hns⟩
          exact ⟨Or.inr hx, hns⟩
        · rintro ⟨hx | hx, hns⟩
          · exact absurd (hx ▸ ha) hns
          · exact ⟨hx, hns⟩
      · rw [uniqueAux, if_neg ha]
        simp only [List.mem_cons]
        rw [mem_uniqueAux xs (a :: seen) x]
        simp only [List.mem_cons]
        constructor
        · rintro (rfl | ⟨hx, hns⟩)
          · exact ⟨Or.inl rfl, ha⟩
          · exact ⟨Or.inr hx, fun hc => hns (Or.inr hc)⟩
        · rintro ⟨rfl | hx, hns⟩
          · exact Or.inl rfl
          · by_cases hxa : x = a
            · exact Or.inl hxa
            · exact Or.inr ⟨hx, fun hc => hc.elim hxa hns⟩

/-- Membership in `unique`: exactly the elements of the list. -/
theorem mem_unique (l : List String) (x : String) : x ∈ unique l ↔ x ∈ l := by
  rw [unique, mem_uniqueAux]
  simp

/-! Claim theorems. -/

/-- C1: for every dataset and every project identifier, the Project Filter
returns exactly the ordered subsequence of records whose project identifier
equals the given identifier: every returned record has that identifier,
every record of the dataset with that identifier is returned, and the
result is a subsequence (hence a non-strict, possibly empty, subset of the
dataset preserving its relative order). -/
theorem projectFilter_correct (df : List ProjectRecord) (pid : String) :
    (∀ r ∈ projectFilter df pid, r.Project_ID = pid) ∧
    (∀ r ∈ df, r.Project_ID = pid → r ∈ projectFilter df pid) ∧
    List.Sublist (projectFilter df pid) df := by
  refine ⟨?_, ?_, List.filter_sublist df⟩
  · intro r hr
    have h := List.mem_filter.mp hr
    simpa using h.2
  · intro r hr hpid
    exact List.mem_filter.mpr ⟨hr, by simpa using hpid⟩

/-- Witness for C1 on the sample dataset: the "Design" row of project "P1"
is returned when filtering by "P1". -/
theorem projectFilter_correct_witness :
    sampleRow "P1" "Design" ∈ projectFilter sampleDf "P1" :=
  (projectFilter_correct sampleDf "P1").2.1 (sampleRow "P1" "Design") (by decide) rfl

/-- C2: filtering by an identifier that occurs in no record returns the
empty sequence (and, being a total function, never an error). -/
theorem projectFilter_absent (df : List ProjectRecord) (pid : String)
    (h : ∀ r ∈ df, r.Project_ID ≠ pid) : projectFilter df pid = [] := by
  rw [projectFilter, List.filter_eq_nil_iff]
  intro r hr
  simpa using h r hr

/-- Witness for C2 on the sample dataset: no row belongs to "P3", and
filtering by "P3" yields the empty sequence. -/
theorem projectFilter_absent_witness : projectFilter sampleDf "P3" = [] :=
  projectFilter_absent sampleDf "P3" (by decide)

/-- C3: for every record subsequence and analysis kind, the built prompt
embeds, for each of that kind's columns, the Python list rendering of the
column values in input order, and therefore contains the repr of every
value of those columns. -/
theorem buildPrompt_embeds_columns (kind : AnalysisKind)
    (project_data : List ProjectRecord) (col : ProjectRecord → Value)
    (hcol : col ∈ kindColumns kind) :
    (∃ p q, buildPrompt kind project_data =
        p ++ pyListRepr (project_data.map col) ++ q) ∧
    ∀ r ∈ project_data, ∃ p q,
        buildPrompt kind project_data = p ++ (col r).pyRepr ++ q := by
  have hmain : ∃ p q, buildPrompt kind project_data =
      p ++ pyListRepr (project_data.map col) ++ q := by
    cases kind with
    | timeline =>
        simp only [kindColumns, List.mem_cons, List.mem_singleton,
          List.not_mem_nil, or_false] at hcol
        rcases hcol with rfl | rfl | rfl
        · simp only [buildPrompt, timelinePrompt]
          exact embed_right _ (embed_right _ (embed_right _ (embed_right _
            (embed_right _ (embed_end _ _)))))
        · simp only [buildPrompt, timelinePrompt]
          exact embed_right _ (embed_right _ (embed_right _ (embed_end _ _)))
        · simp only [buildPrompt, timelinePrompt]
          exact embed_right _ (embed_end _ _)
    | resource =>
        simp only [kindColumns, List.mem_cons, List.mem_singleton,
          List.not_mem_nil, or_false] at hcol
        rcases hcol with rfl | rfl | rfl
        · simp only [buildPrompt, resourcePrompt]
          exact embed_right _ (embed_right _ (embed_right _ (embed_right _
            (embed_right _ (embed_end _ _)))))
        · simp only [buildPrompt, resourcePrompt]
          exact embed_right _ (embed_right _ (embed_right _ (embed_end _ _)))
        · simp only [buildPrompt, resourcePrompt]
          exact embed_right _ (embed_end _ _)
    | risk =>
        simp only [kindColumns, List.mem_cons, List.mem_singleton,
          List.not_mem_nil, or_false] at hcol
        rcases hcol with rfl | rfl | rfl
        · simp only [buildPrompt, riskPrompt]
          exact embed_right _ (embed_right _ (embed_right _ (embed_right _
            (embed_right _ (embed_end _ _)))))
        · simp only [buildPrompt, riskPrompt]
          exact embed_right _ (embed_right _ (embed_right _ (embed_end _ _)))
        · simp only [buildPrompt, riskPrompt]
          exact embed_right _ (embed_end _ _)
  exact ⟨hmain, fun r hr =>
    embed_trans hmain (pyListRepr_mem (List.mem_map_of_mem col hr))⟩

/-- Witness for C3 on the sample dataset: the timeline prompt for the full
sample dataset contains the repr of the task name "Design". -/
theorem buildPrompt_embeds_columns_witness :
    ∃ p q, buildPrompt .timeline sampleDf =
      p ++ (Value.str "Design").pyRepr ++ q :=
  (buildPrompt_embeds_columns .timeline sampleDf (fun r => r.Task_Name)
      (by simp [kindColumns])).2
    (sampleRow "P1" "Design") (by decide)

/-- C4: the Prompt Builder is deterministic and pure: over any ambient
state, two runs on the same record subsequence and kind return the same
string, and neither run changes the state. -/
theorem runPromptBuilder_pure (σ : Type) (kind : AnalysisKind)
    (project_data : List ProjectRecord) (w1 w2 : σ) :
    (runPromptBuilder kind project_data w1).1 =
      (runPromptBuilder kind project_data w2).1 ∧
    (runPromptBuilder kind project_data w1).2 = w1 ∧
    (runPromptBuilder kind project_data w2).2 = w2 :=
  ⟨rfl, rfl, rfl⟩

/-- C5: on the empty record subsequence, every analysis kind renders each
of its column lists as the empty Python list, and the built prompt embeds
the three empty lists (the Prompt Builder is total, so no error arises). -/
theorem buildPrompt_empty (kind : AnalysisKind) :
    (∀ col ∈ kindColumns kind, pyListRepr (List.map col []) = "[]") ∧
    ∃ s1 s2 s3 s4, buildPrompt kind [] =
      s1 ++ "[]" ++ s2 ++ "[]" ++ s3 ++ "[]" ++ s4 := by
  refine ⟨fun col _ => rfl, ?_⟩
  cases kind with
  | timeline =>
      exact ⟨"\n        Analyze this project timeline data:\n        Tasks: ",
        "\n        Estimated Days: ",
        "\n        Actual Days: ",
        "\n        \n        Provide:\n        1. Timeline prediction based on historical data\n        2. Potential delays and bottlenecks\n        3. Schedule optimization suggestions\n        ",
        rfl⟩
  | resource =>
      exact ⟨"\n        Analyze resource data:\n        Resources: ",
        "\n        Efficiency: ",
        "\n        Idle Time: ",
        "\n        \n        Provide:\n        1. Resource utilization recommendations\n        2. How to minimize idle time\n        3. Efficiency improvement suggestions\n        ",
        rfl⟩
  | risk =>
      exact ⟨"\n        Analyze project risks:\n        Risk Types: ",
        "\n        Likelihood: ",
        "\n        Impact: ",
        "\n        \n        Provide:\n        1. Risk assessment summary\n        2. Mitigation strategies\n        3. Priority recommendations\n        ",
        rfl⟩

/-- Witness for C5: on the timeline kind the first conjunct holds of the
first column and the prompt on the empty subsequence embeds the empty
lists. -/
theorem buildPrompt_empty_witness :
    pyListRepr (List.map (fun r : ProjectRecord => r.Task_Name) []) = "[]" :=
  (buildPrompt_empty .timeline).1 (fun r => r.Task_Name)
    (by simp [kindColumns])

/-- C6: no operation mutates the dataset after load: every analysis method
returns the analytics state unchanged, so the dataframe (and with it every
field of every record) is exactly what it was. -/
theorem analytics_frame (a : ProjectAnalytics)
    (generate_content : String → Except String GenResponse) (pid : String) :
    (a.analyze_timeline generate_content pid).2 = a ∧
    (a.optimize_resources generate_content pid).2 = a ∧
    (a.assess_risks generate_content pid).2 = a ∧
    (a.analyze_timeline generate_content pid).2.df = a.df ∧
    (a.optimize_resources generate_content pid).2.df = a.df ∧
    (a.assess_risks generate_content pid).2.df = a.df :=
  ⟨rfl, rfl, rfl, rfl, rfl, rfl⟩

/-- C7: if loading the input file fails, the failure is reported to the
user and the flow halts: the Data Loader returns no dataframe together
with the reported message, the main flow ends halted with that message,
and no analytics object is ever constructed or served. -/
theorem load_failure_halts (e : String) :
    load_data (.error e) = (none, ["Error loading data: " ++ e]) ∧
    mainFlow (.error e) = .halted ["Error loading data: " ++ e] ∧
    ∀ a ps, mainFlow (.error e) ≠ .serving a ps := by
  refine ⟨rfl, rfl, ?_⟩
  intro a ps h
  simp [mainFlow, load_data] at h

/-- Witness for C7: the flow on a concrete read failure halts with the
reported message. -/
theorem load_failure_halts_witness :
    mainFlow (.error "missing file") =
      .halted ["Error loading data: " ++ "missing file"] :=
  (load_failure_halts "missing file").2.1

/-- C8: each analysis operation propagates a failure of the external
text-generation call unchanged, and on success returns exactly the
response text. -/
theorem analysis_propagates (a : ProjectAnalytics)
    (generate_content : String → Except String GenResponse) (pid : String) :
    ((∀ e, generate_content (timelinePrompt (projectFilter a.df pid)) = .error e →
        (a.analyze_timeline generate_content pid).1 = .error e) ∧
      (∀ resp, generate_content (timelinePrompt (projectFilter a.df pid)) = .ok resp →
        (a.analyze_timeline generate_content pid).1 = .ok resp.text)) ∧
    ((∀ e, generate_content (resourcePrompt (projectFilter a.df pid)) = .error e →
        (a.optimize_resources generate_content pid).1 = .error e) ∧
      (∀ resp, generate_content (resourcePrompt (projectFilter a.df pid)) = .ok resp →
        (a.optimize_resources generate_content pid).1 = .ok resp.text)) ∧
    ((∀ e, generate_content (riskPrompt (projectFilter a.df pid)) = .error e →
        (a.assess_risks generate_content pid).1 = .error e) ∧
      (∀ resp, generate_content (riskPrompt (projectFilter a.df pid)) = .ok resp →
        (a.assess_risks generate_content pid).1 = .ok resp.text)) := by
  refine ⟨⟨?_, ?_⟩, ⟨?_, ?_⟩, ⟨?_, ?_⟩⟩ <;> intro x hx
  · simp [ProjectAnalytics.analyze_timeline, hx, Except.map]
  · simp [ProjectAnalytics.analyze_timeline, hx, Except.map]
  · simp [ProjectAnalytics.optimize_resources, hx, Except.map]
  · simp [ProjectAnalytics.optimize_resources, hx, Except.map]
  · simp [ProjectAnalytics.assess_risks, hx, Except.map]
  · simp [ProjectAnalytics.assess_risks, hx, Except.map]

/-- Witness for C8: with an always-failing external service, the timeline
analysis on the sample dataset surfaces exactly the service error. -/
theorem analysis_propagates_witness :
    ((⟨sampleDf⟩ : ProjectAnalytics).analyze_timeline
        (failingGen "quota exceeded") "P1").1 = .error "quota exceeded" :=
  (analysis_propagates ⟨sampleDf⟩ (failingGen "quota exceeded") "P1").1.1
    "quota exceeded" rfl

/-- C9: the identifiers offered for selection are exactly the distinct
Project_ID values occurring in the loaded dataset, and filtering by any
offered identifier yields a non-empty subsequence. -/
theorem selectable_projects (df : List ProjectRecord) (pid : String) :
    mainFlow (.ok df) = .serving ⟨df⟩ (unique (df.map (·.Project_ID))) ∧
    (pid ∈ unique (df.map (·.Project_ID)) ↔ ∃ r ∈ df, r.Project_ID = pid) ∧
    (pid ∈ unique (df.map (·.Project_ID)) → projectFilter df pid ≠ []) := by
  have hmem : pid ∈ unique (df.map (·.Project_ID)) ↔
      ∃ r ∈ df, r.Project_ID = pid := by
    rw [mem_unique]
    simp [List.mem_map]
  refine ⟨rfl, hmem, fun h hnil => ?_⟩
  obtain ⟨r, hr, hpid⟩ := hmem.mp h
  have hin : r ∈ projectFilter df pid :=
    List.mem_filter.mpr ⟨hr, by simpa using hpid⟩
  rw [hnil] at hin
  exact List.not_mem_nil r hin

/-- Witness for C9: "P1" is offered on the sample dataset and filtering by
it is non-empty. -/
theorem selectable_projects_witness : projectFilter sampleDf "P1" ≠ [] :=
  (selectable_projects sampleDf "P1").2.2 (by decide)

/-- C10: the row subsequence the Presentation Layer charts and the row
subsequence the analysis methods build their prompts from are the same
filter applied to the same inputs, hence equal. -/
theorem chart_matches_analysis (df : List ProjectRecord) (pid : String) :
    chart_project_df df pid = projectFilter df pid := rfl
